import Mathlib

/-!
Shallow embedding of the computational core of the TSP-cost dashboard
(`app.py`): the scenario-table lookup (`_filter_data`), the
filter-and-aggregate pipeline (`filter_data`), the chart builder
(`_make_graph`) and the callback entry point (`update`), together with the
ProjectionEngine recurrence of the specification (whose implementation is
not in the provided sources).

Numeric values are modelled as exact rationals (`ℚ`); the pandas frames are
modelled as lists of rows.  Per the external-interface description, all four
scenario tables share one column layout: the six parameter columns, the year
columns, and a final `Total` column; a row is therefore a record of the six
parameter fields plus the ordered list of its value columns, and the shared
value-column labels are carried once per table set.
-/

/-- The six policy knobs, exactly the six columns `_filter_data` matches on. -/
structure PolicyParameters where
  match_rt : ℚ
  phaseout_start : ℚ
  phaseout_rt : ℚ
  takeup_rt : ℚ
  leakage : ℚ
  roi : ℚ
deriving DecidableEq, Repr

/-- One row of a scenario CSV: the six parameter columns plus the ordered
value columns (year columns and the trailing `Total` column). -/
structure ScenarioRow where
  match_rt : ℚ
  phaseout_start : ℚ
  phaseout_rt : ℚ
  takeup_rt : ℚ
  leakage : ℚ
  roi : ℚ
  values : List ℚ
deriving DecidableEq, Repr

/-- The four process-wide frames loaded at startup (`cost_df`,
`total_wealth_df`, `wealth_25_df`, `wealth_25_50_df`), with their shared
value-column labels. -/
structure Tables where
  cols : List String
  cost_df : List ScenarioRow
  total_wealth_df : List ScenarioRow
  wealth_25_df : List ScenarioRow
  wealth_25_50_df : List ScenarioRow
deriving DecidableEq, Repr

/-- `_filter_data(df, ...)`: `df.loc` under the conjunction of the six
column-equality masks — keeps exactly the rows whose six parameter fields
all equal the query, in order. -/
def _filter_data (df : List ScenarioRow) (p : PolicyParameters) : List ScenarioRow :=
  df.filter (fun r =>
    (r.match_rt == p.match_rt)
      && (r.phaseout_start == p.phaseout_start)
      && (r.phaseout_rt == p.phaseout_rt)
      && (r.takeup_rt == p.takeup_rt)
      && (r.leakage == p.leakage)
      && (r.roi == p.roi))

/-- `Series.cumsum` seeded with a running total `acc`. -/
def cumsumFrom (acc : ℚ) : List ℚ → List ℚ
  | [] => []
  | v :: vs => (acc + v) :: cumsumFrom (acc + v) vs

/-- `df.cumsum(axis=1)` applied to one row: running sums along the columns. -/
def cumsum (vs : List ℚ) : List ℚ := cumsumFrom 0 vs

/-- `df.drop([lbl], axis=1)` applied to one row: remove the value columns
whose label is `lbl`. -/
def dropCol (lbl : String) (cols : List String) (vals : List ℚ) : List ℚ :=
  ((cols.zip vals).filter (fun cv => cv.1 ≠ lbl)).map Prod.snd

/-- `sum_df.cumsum(axis=1).abs()` then `.drop(["Total"], axis=1)` applied to
one metric row, as in `filter_data`. -/
def aggRow (cols : List String) (vals : List ℚ) : List ℚ :=
  dropCol "Total" cols ((cumsum vals).map (fun v => |v|))

/-- Round-half-to-even on `ℚ`, the rounding pandas `round` performs. -/
def roundHalfEven (x : ℚ) : ℤ :=
  let f := ⌊x⌋
  if x - f < 1/2 then f
  else if 1/2 < x - f then f + 1
  else if Even f then f else f + 1

/-- `round(1)`: round to one decimal place. -/
def roundTo1 (x : ℚ) : ℚ := (roundHalfEven (10 * x) : ℚ) / 10

/-- The four index labels `filter_data` assigns to the concatenated rows. -/
def metricLabels : List String :=
  ["Budget Estimate", "Wealth Generated for <25p",
   "Wealth Generated for 25-50p", "Total Wealth Generated"]

/-- The `pd.concat` argument inside `filter_data`: the four filtered frames
in the order cost, wealth_25, wealth_25_50, total_wealth. -/
def concatRows (t : Tables) (p : PolicyParameters) : List ScenarioRow :=
  _filter_data t.cost_df p ++ _filter_data t.wealth_25_df p ++
    _filter_data t.wealth_25_50_df p ++ _filter_data t.total_wealth_df p

/-- The labelled `sum_df` (metric label paired with the value columns of the
selected row, the six parameter columns dropped). -/
def sumRows (t : Tables) (p : PolicyParameters) : List (String × List ℚ) :=
  metricLabels.zip ((concatRows t p).map (fun r => r.values))

/-- `filter_data`: filter each of the four frames, concatenate the results,
assign the four metric labels (pandas raises a length-mismatch `ValueError`
— here `none` — unless exactly 4 rows were selected), drop the six parameter
columns, and return the per-year table rounded to one decimal together with
the cumulative-absolute aggregate (`sum_df.cumsum(axis=1).abs()` with the
`Total` column dropped) that feeds the chart. -/
def filter_data (t : Tables) (p : PolicyParameters) :
    Option (List (String × List ℚ) × List (String × List ℚ)) :=
  if (concatRows t p).length = 4 then
    some ((sumRows t p).map (fun r => (r.1, r.2.map roundTo1)),
          (sumRows t p).map (fun r => (r.1, aggRow t.cols r.2)))
  else none

/-- `_make_graph`: the two chart traces, `df.loc["Total Wealth Generated"]`
and `df.loc["Budget Estimate"]`, each rounded to one decimal (`none` when a
label is absent, as `df.loc` raises). -/
def _make_graph (agg : List (String × List ℚ)) :
    Option (List (String × List ℚ)) := do
  let wealth ← agg.lookup "Total Wealth Generated"
  let cost ← agg.lookup "Budget Estimate"
  pure [("Wealth (bn)", wealth.map roundTo1), ("Cost (bn)", cost.map roundTo1)]

/-- The two ways `update` fails before producing output: `phaseout` outside
{1, 2} leaves `phaseout_start`/`phaseout_rt` unassigned (Python
`UnboundLocalError`, before any lookup), and a selected row count other
than 4 makes the index assignment in `filter_data` raise (`ValueError`). -/
inductive UpdateError where
  | unboundPhaseout
  | lengthMismatch
deriving DecidableEq, Repr

/-- The `phaseout_start`/`phaseout_rt` assignments at the top of `update`:
defined only for the selector values 1 (slow) and 2 (fast). -/
def phaseoutFor (phaseout : ℕ) : Option (ℚ × ℚ) :=
  if phaseout = 1 then some (0.5, 0.03)
  else if phaseout = 2 then some (0.67, 0.05)
  else none

/-- Lift the `filter_data` outcome into the error vocabulary of `update`. -/
def liftLookup (o : Option (List (String × List ℚ) × List (String × List ℚ))) :
    Except UpdateError (List (String × List ℚ) × List (String × List ℚ)) :=
  o.elim (Except.error UpdateError.lengthMismatch) Except.ok

/-- The `update` callback: derive `phaseout_start`/`phaseout_rt` from the
two-valued selector, then run `filter_data` with the six parameters. -/
def update (t : Tables) (match_v : ℚ) (phaseout : ℕ) (leakage takeup rate : ℚ) :
    Except UpdateError (List (String × List ℚ) × List (String × List ℚ)) :=
  match phaseoutFor phaseout with
  | none => Except.error UpdateError.unboundPhaseout
  | some (phaseout_start, phaseout_rt) =>
      liftLookup (filter_data t
        ⟨match_v, phaseout_start, phaseout_rt, takeup, leakage, rate⟩)

/-- One parameter-change event as delivered by the five UI inputs, in the
argument order of `update`. -/
structure Query where
  match_v : ℚ
  phaseout : ℕ
  leakage : ℚ
  takeup : ℚ
  rate : ℚ
deriving DecidableEq, Repr

/-- One user interaction against the process-wide tables: the callback reads
the four loaded frames and recomputes from scratch.  No pandas operation in
the pipeline writes to the loaded frames — boolean-mask `.loc`, `concat`,
`drop`, `cumsum`, `abs` and `round` all return new frames, and the single
in-place operation (the index assignment) targets the fresh `concat`
result — so the table state handed to the next interaction is the input
state. -/
def handleQuery (s : Tables) (q : Query) :
    Tables ×
      Except UpdateError (List (String × List ℚ) × List (String × List ℚ)) :=
  (s, update s q.match_v q.phaseout q.leakage q.takeup q.rate)

/-- The table state after a sequence of interactions. -/
def runQueries (s : Tables) : List Query → Tables
  | [] => s
  | q :: qs => runQueries (handleQuery s q).1 qs

namespace ProjectionEngine

/-- Modelled from the spec: `ProjectionEngine.project`, Variant A — the
matched-and-own-contributions recurrence of the single-earner dashboard
variants, whose implementation is not among the provided sources.
`w 0 = 0`; `matched = min contribution_rate match_rate`; and
`w (t+1) = w t * (1 + roi) + matched * income
  + contribution_rate * income * (1 - leakage_rate)`. -/
def project (income roi contribution_rate match_rate leakage_rate : ℚ) :
    ℕ → ℚ
  | 0 => 0
  | t + 1 =>
      project income roi contribution_rate match_rate leakage_rate t * (1 + roi)
        + min contribution_rate match_rate * income
        + contribution_rate * income * (1 - leakage_rate)

end ProjectionEngine

/-! Example tables: a one-row grid per metric, used to evaluate the pipeline
on the end-to-end scenario of the specification (Year-0 values
`[-100, 10, 5, 15]`, Year-1 values `[-20, 2, 1, 3]`, arbitrary `Total`). -/

def exampleCols : List String := ["0", "1", "Total"]

def exampleParams : PolicyParameters := ⟨0.03, 0.5, 0.03, 0.85, 0.3, 0.03⟩

/-- A grid row at `exampleParams` with the given value columns. -/
def exRow (vals : List ℚ) : ScenarioRow :=
  ⟨0.03, 0.5, 0.03, 0.85, 0.3, 0.03, vals⟩

def exampleTables : Tables :=
  ⟨exampleCols,
   [exRow [-100, -20, 999]],
   [exRow [15, 3, 999]],
   [exRow [10, 2, 999]],
   [exRow [5, 1, 999]]⟩

/-- The per-year table `filter_data` returns on the example. -/
def exampleSum : List (String × List ℚ) :=
  [("Budget Estimate", [-100, -20, 999]),
   ("Wealth Generated for <25p", [10, 2, 999]),
   ("Wealth Generated for 25-50p", [5, 1, 999]),
   ("Total Wealth Generated", [15, 3, 999])]

/-- The cumulative-absolute aggregate `filter_data` returns on the example. -/
def exampleAgg : List (String × List ℚ) :=
  [("Budget Estimate", [100, 120]),
   ("Wealth Generated for <25p", [10, 12]),
   ("Wealth Generated for 25-50p", [5, 6]),
   ("Total Wealth Generated", [15, 18])]

/-- A query outside the enumerated grid: `roi = 0.99` is not a table value. -/
def offGridParams : PolicyParameters := ⟨0.03, 0.5, 0.03, 0.85, 0.3, 0.99⟩

/-- Modelled from the spec: the value-column layout of the scenario data
source — year columns `0..40` followed by a `Total` column (the CSV data
files themselves are not among the provided sources). -/
def specYearCols : List String := (List.range 41).map (fun n => toString n)

def specValueCols : List String := specYearCols ++ ["Total"]

/-! Helper lemmas about the aggregation steps. -/

theorem cumsumFrom_length (acc : ℚ) (vs : List ℚ) :
    (cumsumFrom acc vs).length = vs.length := by
  induction vs generalizing acc with
  | nil => rfl
  | cons v vs ih => simp [cumsumFrom, ih]

theorem cumsum_length (vs : List ℚ) : (cumsum vs).length = vs.length :=
  cumsumFrom_length 0 vs

theorem cumsumFrom_append (acc : ℚ) (xs ys : List ℚ) :
    cumsumFrom acc (xs ++ ys) =
      cumsumFrom acc xs ++ cumsumFrom (acc + xs.sum) ys := by
  induction xs generalizing acc with
  | nil => simp [cumsumFrom]
  | cons x xs ih => simp [cumsumFrom, ih, add_assoc]

theorem cumsumFrom_getD_succ (acc : ℚ) (vs : List ℚ) (t : ℕ)
    (h : t + 1 < vs.length) :
    (cumsumFrom acc vs).getD (t + 1) 0 =
      (cumsumFrom acc vs).getD t 0 + vs.getD (t + 1) 0 := by
  induction vs generalizing acc t with
  | nil => simp at h
  | cons v rest ih =>
    cases t with
    | zero =>
      cases rest with
      | nil => simp at h
      | cons w ws => simp [cumsumFrom]
    | succ t' =>
      have h' : t' + 1 < rest.length := by
        simpa [Nat.succ_lt_succ_iff] using h
      simp only [cumsumFrom, List.getD_cons_succ]
      exact ih (acc + v) t' h'

/-- Dropping a trailing column whose label does not occur among the other
labels removes exactly that column. -/
theorem dropCol_last (ycols : List String) (as : List ℚ) (b : ℚ)
    (hT : "Total" ∉ ycols) (hl : ycols.length = as.length) :
    dropCol "Total" (ycols ++ ["Total"]) (as ++ [b]) = as := by
  unfold dropCol
  rw [List.zip_append hl, List.filter_append]
  have h1 : (ycols.zip as).filter (fun cv => cv.1 ≠ "Total") = ycols.zip as := by
    apply List.filter_eq_self.mpr
    intro cv hcv
    obtain ⟨c, v⟩ := cv
    have hc : c ∈ ycols := (List.of_mem_zip hcv).1
    have hne : c ≠ "Total" := fun hh => hT (hh ▸ hc)
    simpa using hne
  have h2 : (["Total"].zip [b]).filter (fun cv => cv.1 ≠ "Total") = [] := by
    simp
  rw [h1, h2, List.append_nil]
  exact List.map_snd_zip ycols as hl.ge

/-- `cumsum` then `abs` then dropping the trailing `Total` column equals
`cumsum` then `abs` of the year columns alone: the `Total` value never
reaches the charted series. -/
theorem aggRow_total_last (ycols : List String) (ys : List ℚ) (tval : ℚ)
    (hT : "Total" ∉ ycols) (hl : ycols.length = ys.length) :
    aggRow (ycols ++ ["Total"]) (ys ++ [tval]) =
      (cumsum ys).map (fun v => |v|) := by
  unfold aggRow cumsum
  rw [cumsumFrom_append]
  simp only [cumsumFrom, List.map_append, List.map_cons, List.map_nil]
  exact dropCol_last ycols _ _ hT (by simp [hl, cumsumFrom_length])

theorem aggRow_nonneg (cols : List String) (vals : List ℚ) (v : ℚ)
    (hv : v ∈ aggRow cols vals) : 0 ≤ v := by
  unfold aggRow dropCol at hv
  rw [List.mem_map] at hv
  obtain ⟨cv, hcv, hsnd⟩ := hv
  have hz : cv ∈ cols.zip ((cumsum vals).map (fun v => |v|)) :=
    List.mem_of_mem_filter hcv
  obtain ⟨c, w⟩ := cv
  have hw : w ∈ (cumsum vals).map (fun v => |v|) := (List.of_mem_zip hz).2
  rw [List.mem_map] at hw
  obtain ⟨x, _, hx⟩ := hw
  subst hsnd
  simp only [← hx]
  exact abs_nonneg x

/-- C3: membership in the filtered frame is exactly the conjunction of the
six field equalities with the query. -/
theorem filter_data_exact_match (df : List ScenarioRow) (p : PolicyParameters)
    (r : ScenarioRow) :
    r ∈ _filter_data df p ↔
      r ∈ df ∧ r.match_rt = p.match_rt ∧ r.phaseout_start = p.phaseout_start ∧
        r.phaseout_rt = p.phaseout_rt ∧ r.takeup_rt = p.takeup_rt ∧
        r.leakage = p.leakage ∧ r.roi = p.roi := by
  simp [_filter_data, List.mem_filter, and_assoc]

/-- Shared evaluation of the pipeline on the end-to-end example: the filter
selects the single grid row per metric, the per-year table is returned
rounded, and the aggregate is the cumulative-absolute series without the
`Total` column. -/
theorem filter_data_example_eval :
    filter_data exampleTables exampleParams = some (exampleSum, exampleAgg) := by
  norm_num [filter_data, concatRows, sumRows, _filter_data, exampleTables,
    exampleParams, exRow, metricLabels, exampleSum, exampleAgg, aggRow, cumsum,
    cumsumFrom, dropCol, roundTo1, roundHalfEven, exampleCols, List.filter]
  decide

/-- C2: the aggregation computes, per metric row, the running cumulative sum
along the year axis (`cum 0 = value 0`, `cum (t+1) = cum t + value (t+1)`),
then takes absolute values element-wise, then drops the trailing `Total`
sentinel column; on the end-to-end example the Budget Estimate series is
`[100, 120]` and the Wealth Generated for <25p series is `[10, 12]`. -/
theorem agg_cumsum_abs_dropTotal :
    (∀ (v0 : ℚ) (rest : List ℚ), (cumsum (v0 :: rest)).getD 0 0 = v0) ∧
    (∀ (vs : List ℚ) (t : ℕ), t + 1 < vs.length →
      (cumsum vs).getD (t + 1) 0 = (cumsum vs).getD t 0 + vs.getD (t + 1) 0) ∧
    (∀ (ycols : List String) (ys : List ℚ) (tval : ℚ), "Total" ∉ ycols →
      ycols.length = ys.length →
      aggRow (ycols ++ ["Total"]) (ys ++ [tval]) =
        (cumsum ys).map (fun v => |v|)) ∧
    filter_data exampleTables exampleParams = some (exampleSum, exampleAgg) := by
  refine ⟨?_, ?_, ?_, filter_data_example_eval⟩
  · intro v0 rest
    simp [cumsum, cumsumFrom]
  · intro vs t h
    exact cumsumFrom_getD_succ 0 vs t h
  · intro ycols ys tval hT hl
    exact aggRow_total_last ycols ys tval hT hl

/-- Witness for C2 at the Budget Estimate row of the example: year values
`[-100, -20]`, `Total` value `999`. -/
theorem agg_cumsum_abs_dropTotal_witness :
    ((0 : ℕ) + 1 < ([(-100 : ℚ), -20]).length ∧
      (cumsum [(-100 : ℚ), -20]).getD (0 + 1) 0 =
        (cumsum [(-100 : ℚ), -20]).getD 0 0 + ([(-100 : ℚ), -20]).getD (0 + 1) 0) ∧
    ("Total" ∉ ["0", "1"] ∧
      (["0", "1"] : List String).length = ([(-100 : ℚ), -20]).length ∧
      aggRow (["0", "1"] ++ ["Total"]) ([(-100 : ℚ), -20] ++ [999]) =
        (cumsum [(-100 : ℚ), -20]).map (fun v => |v|)) :=
  ⟨⟨by decide, agg_cumsum_abs_dropTotal.2.1 [(-100 : ℚ), -20] 0 (by decide)⟩,
    by decide, by decide,
    agg_cumsum_abs_dropTotal.2.2.1 ["0", "1"] [(-100 : ℚ), -20] 999
      (by decide) (by decide)⟩

/-- C5: the two-valued phaseout selector maps 1 (slow) to `(0.5, 0.03)` and
2 (fast) to `(0.67, 0.05)`, and `update` then invokes the lookup with
exactly those derived values. -/
theorem phaseout_selector_map :
    phaseoutFor 1 = some (0.5, 0.03) ∧ phaseoutFor 2 = some (0.67, 0.05) ∧
    (∀ t m l tk r, update t m 1 l tk r =
        liftLookup (filter_data t ⟨m, 0.5, 0.03, tk, l, r⟩)) ∧
    (∀ t m l tk r, update t m 2 l tk r =
        liftLookup (filter_data t ⟨m, 0.67, 0.05, tk, l, r⟩)) :=
  ⟨rfl, rfl, fun _ _ _ _ _ => rfl, fun _ _ _ _ _ => rfl⟩

/-- C9: `update` fails before reaching the lookup (the Python
`UnboundLocalError` on the never-assigned `phaseout_start`/`phaseout_rt`)
exactly when the phaseout selector is neither 1 nor 2. -/
theorem update_requires_phaseout_selector (t : Tables) (m : ℚ) (p : ℕ)
    (l tk r : ℚ) :
    update t m p l tk r = Except.error UpdateError.unboundPhaseout ↔
      p ≠ 1 ∧ p ≠ 2 := by
  constructor
  · intro h
    constructor
    · rintro rfl
      rw [show update t m 1 l tk r =
          liftLookup (filter_data t ⟨m, 0.5, 0.03, tk, l, r⟩) from rfl] at h
      cases hf : filter_data t ⟨m, 0.5, 0.03, tk, l, r⟩ <;>
        rw [hf] at h <;> simp [liftLookup] at h
    · rintro rfl
      rw [show update t m 2 l tk r =
          liftLookup (filter_data t ⟨m, 0.67, 0.05, tk, l, r⟩) from rfl] at h
      cases hf : filter_data t ⟨m, 0.67, 0.05, tk, l, r⟩ <;>
        rw [hf] at h <;> simp [liftLookup] at h
  · rintro ⟨h1, h2⟩
    unfold update phaseoutFor
    simp [h1, h2]

/-- C6: the Variant A recurrence starts at `w 0 = 0` for all inputs, and on
the reference scenario (income 30000, roi 0.03, contribution rate 0.03,
match rate 0.03, leakage 0.4) yields `w 1 = 1440` and `w 2 = 2923.2`. -/
theorem project_variantA :
    (∀ income roi c m l : ℚ, ProjectionEngine.project income roi c m l 0 = 0) ∧
    ProjectionEngine.project 30000 0.03 0.03 0.03 0.4 1 = 1440 ∧
    ProjectionEngine.project 30000 0.03 0.03 0.03 0.4 2 = 2923.2 := by
  refine ⟨fun _ _ _ _ _ => rfl, ?_, ?_⟩ <;> norm_num [ProjectionEngine.project]

/-- C8: any number of interactions leaves the four process-wide scenario
tables exactly as loaded. -/
theorem tables_unchanged (s : Tables) (qs : List Query) (q : Query) :
    runQueries s qs = s ∧ (handleQuery s q).1 = s := by
  constructor
  · induction qs generalizing s with
    | nil => rfl
    | cons q' qs ih => exact ih s
  · rfl

/-- C1: with the grid loaded and an off-grid query (`roi = 0.99`), the
lookup returns an empty frame with no error value, and the pipeline then
fails with the generic length-mismatch condition of the index assignment —
no `ScenarioNotFound` signal exists anywhere on this path. -/
theorem lookup_miss_not_signaled :
    _filter_data exampleTables.cost_df offGridParams = [] ∧
    filter_data exampleTables offGridParams = none ∧
    update exampleTables 0.03 1 0.3 0.85 0.99 =
      Except.error UpdateError.lengthMismatch := by
  refine ⟨?_, ?_, ?_⟩
  · norm_num [_filter_data, exampleTables, offGridParams, exRow,
      List.filter_cons]
  · norm_num [filter_data, concatRows, _filter_data, exampleTables,
      offGridParams, exRow, List.filter_cons]
  · norm_num [update, phaseoutFor, liftLookup, filter_data, concatRows,
      _filter_data, exampleTables, exRow, List.filter_cons]

/-- C4 counterexample: on the data-source column layout (year columns
`0..40` followed by `Total`), the aggregated series does not have 40
columns. -/
theorem agg_not_forty_columns :
    (aggRow specValueCols (List.replicate 42 (0 : ℚ))).length ≠ 40 := by
  decide

/-- C4 (amended): for every metric row on the data-source column layout
(year columns `0..40` followed by `Total`), the aggregated cumulative
series has exactly 41 year columns, years 0 through 40 (only the `Total`
column is removed). -/
theorem agg_forty_one_columns (ys : List ℚ) (tval : ℚ) (h : ys.length = 41) :
    (aggRow specValueCols (ys ++ [tval])).length = 41 := by
  have hT : "Total" ∉ specYearCols := by decide
  have hl : specYearCols.length = ys.length := by simp [specYearCols, h]
  rw [show specValueCols = specYearCols ++ ["Total"] from rfl,
    aggRow_total_last specYearCols ys tval hT hl]
  simp [cumsum_length, h]

/-- Witness for the amended C4 at a concrete 41-year row. -/
theorem agg_forty_one_columns_witness :
    (List.replicate 41 (0 : ℚ)).length = 41 ∧
    (aggRow specValueCols (List.replicate 41 (0 : ℚ) ++ [0])).length = 41 :=
  ⟨by decide, agg_forty_one_columns (List.replicate 41 0) 0 (by decide)⟩

/-- C7: whenever `filter_data` succeeds, the per-year tabular output handed
to the display collaborator has exactly 4 metric rows, and every numeric
value in it is a multiple of one tenth (rounded to 1 decimal place). -/
theorem table_output_shape (t : Tables) (p : PolicyParameters)
    (tbl fig : List (String × List ℚ))
    (h : filter_data t p = some (tbl, fig)) :
    tbl.length = 4 ∧
      ∀ lbl ys, (lbl, ys) ∈ tbl → ∀ v ∈ ys, ∃ k : ℤ, v = (k : ℚ) / 10 := by
  simp only [filter_data] at h
  by_cases hc : (concatRows t p).length = 4
  · rw [if_pos hc, Option.some.injEq, Prod.mk.injEq] at h
    obtain ⟨htbl, _⟩ := h
    subst htbl
    constructor
    · simp [sumRows, metricLabels, hc]
    · intro lbl ys hmem v hv
      simp only [List.mem_map] at hmem
      obtain ⟨r, _, heq⟩ := hmem
      simp only [Prod.mk.injEq] at heq
      obtain ⟨_, hys⟩ := heq
      subst hys
      simp only [List.mem_map] at hv
      obtain ⟨x, _, hxv⟩ := hv
      exact ⟨roundHalfEven (10 * x), by rw [← hxv]; rfl⟩
  · rw [if_neg hc] at h
    exact Option.noConfusion h

/-- Witness for C7 on the end-to-end example. -/
theorem table_output_shape_witness :
    filter_data exampleTables exampleParams = some (exampleSum, exampleAgg) ∧
      (exampleSum.length = 4 ∧
        ∀ lbl ys, (lbl, ys) ∈ exampleSum → ∀ v ∈ ys, ∃ k : ℤ, v = (k : ℚ) / 10) :=
  ⟨filter_data_example_eval,
    table_output_shape exampleTables exampleParams exampleSum exampleAgg
      filter_data_example_eval⟩

/-- C10: every element of every aggregated cumulative series produced for
charting is non-negative, whatever the input row values: absolute value is
applied after the cumulative sum. -/
theorem chart_series_nonneg (t : Tables) (p : PolicyParameters)
    (tbl fig : List (String × List ℚ))
    (h : filter_data t p = some (tbl, fig)) :
    ∀ lbl ys, (lbl, ys) ∈ fig → ∀ v ∈ ys, 0 ≤ v := by
  simp only [filter_data] at h
  by_cases hc : (concatRows t p).length = 4
  · rw [if_pos hc, Option.some.injEq, Prod.mk.injEq] at h
    obtain ⟨_, hfig⟩ := h
    subst hfig
    intro lbl ys hmem v hv
    simp only [List.mem_map] at hmem
    obtain ⟨r, _, heq⟩ := hmem
    simp only [Prod.mk.injEq] at heq
    obtain ⟨_, hys⟩ := heq
    subst hys
    exact aggRow_nonneg t.cols r.2 v hv
  · rw [if_neg hc] at h
    exact Option.noConfusion h

/-- Witness for C10 on the end-to-end example, whose cost row is negative. -/
theorem chart_series_nonneg_witness :
    filter_data exampleTables exampleParams = some (exampleSum, exampleAgg) ∧
      ∀ lbl ys, (lbl, ys) ∈ exampleAgg → ∀ v ∈ ys, 0 ≤ v :=
  ⟨filter_data_example_eval,
    chart_series_nonneg exampleTables exampleParams exampleSum exampleAgg
      filter_data_example_eval⟩
